import Mathlib

/-!
Shallow embedding of the reddit-wallpaper selection engine (src/index.js).

Conventions of the embedding:
* JS numbers that stay integral (scores, vote counts, unix timestamps) are
  modelled as `Int`; values that flow through fractional arithmetic are
  modelled as `Real`, with the JS special values NaN / Infinity / -Infinity
  made explicit by the `JSNum` type where they can arise (division, pow).
* A JS function that can throw is modelled with `Except JSError`.
* Asynchronous I/O capabilities (fs.stat) are passed as explicit functions;
  a probe either fails (`Except.error`) or returns a stat record.
* The two regular expressions of the source are modelled by direct
  scanning functions.  Both regexes consist of character classes that are
  disjoint from the literal that must follow them, so the backtracking
  behaviour of the JS engine coincides with maximal-munch scanning, and a
  whole-string search is "try to match at every start position, leftmost
  first" exactly as `String.prototype.match` does.
-/

/-- Errors a modelled JS function can throw.  `typeError` stands for the
TypeError raised when a property of `undefined` is accessed. -/
inductive JSError where
  | typeError : JSError
deriving DecidableEq, Repr

/-- A JS number that may be NaN or an infinity (the cases produced by the
division and `Math.pow` in `controversy`). -/
inductive JSNum where
  | nan : JSNum
  | inf : JSNum
  | ninf : JSNum
  | val : ℝ → JSNum

open Classical in
/-- JS division `a / b` on finite operands: `0/0` is NaN, `a/0` is a signed
infinity for `a ≠ 0`, otherwise ordinary division. -/
noncomputable def jsDiv (a b : ℝ) : JSNum :=
  if b = 0 then
    if a = 0 then JSNum.nan else if 0 < a then JSNum.inf else JSNum.ninf
  else JSNum.val (a / b)

open Classical in
/-- JS `Math.pow base e` for a finite base: NaN exponent gives NaN; an
infinite exponent gives NaN on |base| = 1 and an infinity/zero otherwise; a
negative base with a non-integral exponent gives NaN; `0` to a negative
power is Infinity; otherwise the real power (`Real.rpow`, which agrees with
JS on the remaining cases, including `0 ^ 0 = 1`). -/
noncomputable def jsPow (b : ℝ) (e : JSNum) : JSNum :=
  match e with
  | JSNum.nan => JSNum.nan
  | JSNum.inf =>
    if b = 1 ∨ b = -1 then JSNum.nan
    else if 1 < |b| then JSNum.inf else JSNum.val 0
  | JSNum.ninf =>
    if b = 1 ∨ b = -1 then JSNum.nan
    else if 1 < |b| then JSNum.val 0 else JSNum.inf
  | JSNum.val x =>
    if b < 0 ∧ ¬ (∃ n : ℤ, (n : ℝ) = x) then JSNum.nan
    else if b = 0 ∧ x < 0 then JSNum.inf
    else JSNum.val (b ^ x)

/-- The JS `>` comparison on possibly-NaN numbers: any comparison with NaN
is false. -/
def jsGt : JSNum → JSNum → Prop
  | JSNum.nan, _ => False
  | _, JSNum.nan => False
  | JSNum.inf, JSNum.inf => False
  | JSNum.inf, _ => True
  | JSNum.ninf, _ => False
  | JSNum.val _, JSNum.inf => False
  | JSNum.val _, JSNum.ninf => True
  | JSNum.val x, JSNum.val y => y < x

/-- `Math.round x` (the second argument passed at the call site in `heat`
is ignored by JS): round half towards positive infinity. -/
noncomputable def jsRound (x : ℝ) : ℤ := ⌊x + 1 / 2⌋

/-- ASCII lower-casing of one character, the effect of JS
`String.prototype.toLowerCase` on the ASCII strings this program lower-cases
(domains, file extensions, configuration entries). -/
def jsLowerChar (c : Char) : Char :=
  if 65 ≤ c.toNat ∧ c.toNat ≤ 90 then Char.ofNat (c.toNat + 32) else c

/-- JS `toLowerCase` on a string (ASCII fragment). -/
def jsLowerStr (s : String) : String :=
  (s.toList.map jsLowerChar).asString

/-- Does the string contain an upper-case ASCII letter? -/
def hasUpperChar (c : Char) : Bool := decide (65 ≤ c.toNat ∧ c.toNat ≤ 90)

/-- Does the string contain an upper-case ASCII letter? -/
def hasUpperStr (s : String) : Bool := s.toList.any hasUpperChar

/-- JS `\w`: ASCII letters, digits and underscore. -/
def isWordChar (c : Char) : Bool :=
  decide ((65 ≤ c.toNat ∧ c.toNat ≤ 90) ∨ (97 ≤ c.toNat ∧ c.toNat ≤ 122)
    ∨ (48 ≤ c.toNat ∧ c.toNat ≤ 57) ∨ c = '_')

/-- JS `\s` (restricted to the common ASCII whitespace characters; the
exotic Unicode whitespace JS also accepts never occurs in the inputs the
development evaluates). -/
def isSpaceChar (c : Char) : Bool :=
  c = ' ' || c = '\t' || c = '\n' || c = '\r'

/-- The class `[\w,\s-]` of the file-name regex. -/
def isNameChar (c : Char) : Bool :=
  isWordChar c || c = ',' || isSpaceChar c || c = '-'

/-- JS `\d`. -/
def isDigitChar (c : Char) : Bool := decide (48 ≤ c.toNat ∧ c.toNat ≤ 57)

/-- Value of a non-empty digit run, as `parseInt` computes it. -/
def digitsVal (cs : List Char) : ℕ :=
  cs.foldl (fun a c => 10 * a + (c.toNat - 48)) 0

/-- Attempt to match `([\w,\s-]+)\.([\w]+)(\?|$|#)` at the start of the
character list; on success return the JS match array
`[whole, group1, group2, group3]`.  The classes `[\w,\s-]` and `[\w]` do
not contain `.`, `?` or `#`, so greedy maximal runs need no backtracking. -/
def fileMatchAt (cs : List Char) : Option (List String) :=
  let run1 := cs.takeWhile isNameChar
  if run1.isEmpty then none
  else
    match cs.drop run1.length with
    | '.' :: rest =>
      let run2 := rest.takeWhile isWordChar
      if run2.isEmpty then none
      else
        match rest.drop run2.length with
        | [] =>
          some [(run1 ++ '.' :: run2).asString, run1.asString, run2.asString, ""]
        | '?' :: _ =>
          some [(run1 ++ '.' :: run2 ++ ['?']).asString, run1.asString, run2.asString, "?"]
        | '#' :: _ =>
          some [(run1 ++ '.' :: run2 ++ ['#']).asString, run1.asString, run2.asString, "#"]
        | _ => none
    | _ => none

/-- Leftmost search for the file-name pattern, as `url.match(...)` does. -/
def fileSearch : List Char → Option (List String)
  | [] => none
  | c :: cs =>
    match fileMatchAt (c :: cs) with
    | some r => some r
    | none => fileSearch cs

/-- `matchFile(url)` of the source: run the regex; return the match array
when it matched with more than one entry, otherwise `undefined` (`none`). -/
def matchFile (url : String) : Option (List String) :=
  match fileSearch url.toList with
  | none => none
  | some m => if m.length > 1 then some m else none

/-- `path.join` of the two path fragments used by the program (POSIX-style
separator; the path structure itself is never inspected). -/
def pathJoin (dir file : String) : String := dir ++ "/" ++ file

/-- `urlFilePath(url, directory)`: `matchFile(url)` is dereferenced with
`match.length` WITHOUT a definedness guard, so an unparsable URL raises a
TypeError; a parsed URL yields `directory/name.ext`; when the array is too
short the function falls through and returns `undefined` (`none`). -/
def urlFilePath (url dir : String) : Except JSError (Option String) :=
  match matchFile url with
  | none => Except.error JSError.typeError
  | some m =>
    if m.length > 2 then
      Except.ok (some (pathJoin dir (String.intercalate "." [m.getD 1 "", m.getD 2 ""])))
    else Except.ok none

/-- `parseType(url)`: the lower-cased extension, or `""` when the URL has no
`name.ext` form (here the source does guard `match` for definedness). -/
def parseType (url : String) : String :=
  match matchFile url with
  | some m => if m.length > 2 then jsLowerStr (m.getD 2 "") else ""
  | none => ""

/-- The `type` field of a normalized candidate (line 100 of the source):
`parseType(link.data.url).toLowerCase()`. -/
def normalizeType (url : String) : String := jsLowerStr (parseType url)

/-- A parsed `[width x height]` annotation. -/
structure Resolution where
  width : ℤ
  height : ℤ
deriving DecidableEq, Repr

/-- Attempt to match `\[\s*(\d+)\s*[×x\*]\s*(\d+)\s*\]` (case-insensitive)
at the start of the character list.  Again every class is disjoint from the
literal that must follow it, so maximal-munch scanning is exact. -/
def resMatchAt : List Char → Option Resolution
  | '[' :: r1 =>
    let r2 := r1.dropWhile isSpaceChar
    let d1 := r2.takeWhile isDigitChar
    if d1.isEmpty then none
    else
      match (r2.drop d1.length).dropWhile isSpaceChar with
      | sep :: r4 =>
        if sep = 'x' || sep = 'X' || sep = '*' || sep = '×' then
          let r5 := r4.dropWhile isSpaceChar
          let d2 := r5.takeWhile isDigitChar
          if d2.isEmpty then none
          else
            match (r5.drop d2.length).dropWhile isSpaceChar with
            | ']' :: _ => some ⟨(digitsVal d1 : ℤ), (digitsVal d2 : ℤ)⟩
            | _ => none
        else none
      | [] => none
  | _ => none

/-- Leftmost search for the resolution pattern. -/
def resSearch : List Char → Option Resolution
  | [] => none
  | c :: cs =>
    match resMatchAt (c :: cs) with
    | some r => some r
    | none => resSearch cs

/-- `parseResolution(title)`. -/
def parseResolution (title : String) : Option Resolution :=
  resSearch title.toList

/-- A normalized candidate (lines 89-102 of the source).  Fields a JS
object may simply lack (as in `defaultLink`) are modelled by the default
values given here. -/
structure Link where
  url : String := ""
  subreddit : String := ""
  permalink : String := ""
  title : String := ""
  author : String := ""
  score : ℤ := 0
  ups : ℤ := 0
  downs : ℤ := 0
  createdUtc : ℤ := 0
  domain : String := ""
  type : String := ""
  resolution : Option Resolution := none
deriving DecidableEq, Repr

/-- The fold's seed, `defaultLink` of the source. -/
def defaultLink : Link :=
  { score := 0, createdUtc := 0, ups := 0, downs := 0 }

/-- The sign computed by `heat`. -/
def heatSign (s : ℤ) : ℤ :=
  if 0 < s then 1 else if s < 0 then -1 else 0

/-- `order = Math.log10(Math.max(score, 1))` of `heat`. -/
noncomputable def heatOrder (s : ℤ) : ℝ := Real.logb 10 (max (s : ℝ) 1)

/-- `heat(link)`: `Math.round(sign * order + seconds / 45000, 7)` — JS
`Math.round` ignores the second argument and rounds to an integer. -/
noncomputable def heat (l : Link) : ℤ :=
  jsRound ((heatSign l.score : ℝ) * heatOrder l.score
    + ((l.createdUtc : ℝ) - 1134028003) / 45000)

/-- `controversy(link)`: 0 when a vote count is negative, otherwise
`Math.pow(ups + downs, balance)` where `balance` is the vote ratio
`ups > downs ? downs/ups : ups/downs`. -/
noncomputable def controversy (l : Link) : JSNum :=
  if l.downs < 0 ∨ l.ups < 0 then JSNum.val 0
  else
    jsPow ((l.ups : ℝ) + (l.downs : ℝ))
      (if l.downs < l.ups then jsDiv (l.downs : ℝ) (l.ups : ℝ)
       else jsDiv (l.ups : ℝ) (l.downs : ℝ))

/-- The four sort modes the comparator factory accepts. -/
inductive SortMode where
  | top : SortMode
  | hot : SortMode
  | controversial : SortMode
  | new : SortMode
deriving DecidableEq, Repr

/-- The `top` comparator: `x.score > y.score ? x : y`. -/
def topCmp (x y : Link) : Link := if x.score > y.score then x else y

/-- The `hot` comparator: `heat(x) > heat(y) ? x : y`. -/
noncomputable def hotCmp (x y : Link) : Link :=
  if heat x > heat y then x else y

open Classical in
/-- The `controversial` comparator: `controversy(x) > controversy(y) ? x : y`
with JS `>` (false on NaN). -/
noncomputable def controversialCmp (x y : Link) : Link :=
  if jsGt (controversy x) (controversy y) then x else y

/-- The `new` comparator: `x.createdUtc > y.createdUtc ? x : y`. -/
def newCmp (x y : Link) : Link := if x.createdUtc > y.createdUtc then x else y

/-- `selectLink(sort)` of the source: the comparator used by the fold. -/
noncomputable def selectLink : SortMode → Link → Link → Link
  | SortMode.top => topCmp
  | SortMode.hot => hotCmp
  | SortMode.controversial => controversialCmp
  | SortMode.new => newCmp

/-- Result of a successful `fs.stat`. -/
structure FStat where
  isFile : Bool
deriving DecidableEq, Repr

/-- `fileExists(filePath)`: falsy paths (undefined or the empty string)
resolve to `false`; otherwise the stat capability is consulted, a stat
failure is absorbed to `false`, and on success the regular-file flag is
returned. -/
def fileExists (stat : String → Except Unit FStat) : Option String → Bool
  | none => false
  | some p =>
    if p.isEmpty then false
    else
      match stat p with
      | Except.ok st => st.isFile
      | Except.error _ => false

/-- The shuffle branch's `Promise.filter`: keep the candidates whose
would-be local file does not exist.  Computing a candidate's path can throw
(see `urlFilePath`), which rejects the whole filtering step. -/
def shuffleFilter (dir : String) (stat : String → Except Unit FStat) :
    List Link → Except JSError (List Link)
  | [] => Except.ok []
  | l :: ls =>
    match urlFilePath l.url dir with
    | Except.error e => Except.error e
    | Except.ok fp =>
      match shuffleFilter dir stat ls with
      | Except.error e => Except.error e
      | Except.ok rest =>
        Except.ok (if fileExists stat fp then rest else l :: rest)

/-- The tail of `selectWallpaperLink` (lines 119-127): given the already
filtered candidate list, either fold directly, or (shuffle) first drop the
candidates whose target file already exists and then fold. -/
noncomputable def selectFromFiltered (sort : SortMode) (shuffle : Bool)
    (dir : String) (stat : String → Except Unit FStat) (links : List Link) :
    Except JSError Link :=
  if shuffle then
    match shuffleFilter dir stat links with
    | Except.error e => Except.error e
    | Except.ok kept => Except.ok (kept.foldl (selectLink sort) defaultLink)
  else Except.ok (links.foldl (selectLink sort) defaultLink)

/-- The merged configuration produced by `assignConfig`. -/
structure Config where
  subreddits : List String
  sort : SortMode
  from' : String
  score : ℤ
  domains : Option (List String)
  types : Option (List String)
  files : Option (List String)
  shuffle : Bool
  directory : String
  resolution : Option Resolution

/-- The caller-supplied configuration object: an outer `none` means the key
is absent (so the default applies); for the nullable keys an inner `none`
models JS `null`. -/
structure ConfigIn where
  subreddits : Option (List String) := none
  sort : Option SortMode := none
  from' : Option String := none
  score : Option ℤ := none
  domains : Option (Option (List String)) := none
  types : Option (Option (List String)) := none
  files : Option (Option (List String)) := none
  shuffle : Option Bool := none
  directory : Option String := none
  resolution : Option (Option Resolution) := none

/-- The `defaults` object (the home directory is a capability). -/
def defaults (home : String) : Config :=
  { subreddits := ["wallpaper", "wallpapers", "castles"]
    sort := SortMode.top
    from' := "month"
    score := 100
    domains := some ["i.imgur.com", "imgur.com"]
    types := some ["png", "jpg", "jpeg"]
    files := none
    shuffle := true
    directory := pathJoin home ".reddit-wallpaper"
    resolution := some ⟨1920, 1080⟩ }

/-- `assignConfig(options)`: merge the defaults with the caller's options,
then lower-case the `domains` and `files` entries (note: NOT `types`), and
expand a `~` in the directory (the expansion itself is a capability). -/
def assignConfig (home : String) (expand : String → String) (o : ConfigIn) :
    Config :=
  let d := defaults home
  let merged : Config :=
    { subreddits := o.subreddits.getD d.subreddits
      sort := o.sort.getD d.sort
      from' := o.from'.getD d.from'
      score := o.score.getD d.score
      domains := o.domains.getD d.domains
      types := o.types.getD d.types
      files := o.files.getD d.files
      shuffle := o.shuffle.getD d.shuffle
      directory := o.directory.getD d.directory
      resolution := o.resolution.getD d.resolution }
  { merged with
    domains := merged.domains.map (List.map jsLowerStr)
    files := merged.files.map (List.map jsLowerStr)
    directory :=
      if merged.directory.toList.contains '~' then expand merged.directory
      else merged.directory }

/-- The score clause of the filter (line 105):
`!link.score || link.score >= options.score`. -/
def scoreClause (o : Config) (l : Link) : Bool :=
  decide (l.score = 0) || decide (o.score ≤ l.score)

/-- The domains clause (lines 107-109). -/
def domainsClause (o : Config) (l : Link) : Bool :=
  match o.domains with
  | none => true
  | some ds => ds.isEmpty || ds.contains (jsLowerStr l.domain)

/-- The types clause (lines 111-113); note the candidate's `type` is used
as-is and the configured list is used as-is. -/
def typesClause (o : Config) (l : Link) : Bool :=
  match o.types with
  | none => true
  | some ts => ts.isEmpty || ts.contains l.type

/-- The resolution clause (lines 115-117). -/
def resolutionClause (o : Config) (l : Link) : Bool :=
  match o.resolution with
  | none => true
  | some r =>
    match l.resolution with
    | none => false
    | some lr => decide (r.width ≤ lr.width) && decide (r.height ≤ lr.height)

/-- The whole filter predicate (lines 104-117). -/
def linkFilter (o : Config) (l : Link) : Bool :=
  scoreClause o l && domainsClause o l && typesClause o l && resolutionClause o l

/-- A stat capability under which every path is an existing regular file. -/
def statAllOk : String → Except Unit FStat := fun _ => Except.ok ⟨true⟩

/-- A stat capability that always fails. -/
def statFails : String → Except Unit FStat := fun _ => Except.error ()

/-! ### Helper lemmas -/

/-- JS `>` with NaN on the left is always false. -/
theorem jsGt_nan_left (b : JSNum) : ¬ jsGt JSNum.nan b := by
  cases b <;> exact id

/-- `controversy` of the fold seed is NaN: both vote counts are 0, the
balance is the JS division `0/0`, and `Math.pow` of a NaN exponent is NaN. -/
theorem controversy_defaultLink : controversy defaultLink = JSNum.nan := by
  unfold controversy defaultLink
  rw [if_neg (by norm_num)]
  simp only
  rw [if_neg (by norm_num)]
  unfold jsDiv
  rw [if_pos (by norm_num), if_pos (by norm_num)]
  rfl

/-! ### C1 -/

/-- C1, counterexample: under sort `top`, folding two candidates of equal
score 5 returns the SECOND one, not the first — the comparator
`x.score > y.score ? x : y` hands ties to the incoming candidate. -/
theorem c1_counterexample :
    List.foldl (selectLink SortMode.top) defaultLink
      [{ url := "a", score := 5 }, { url := "b", score := 5 }] =
      { url := "b", score := 5 } ∧
    ({ url := "b", score := 5 } : Link) ≠ { url := "a", score := 5 } := by
  constructor
  · show topCmp (topCmp defaultLink { url := "a", score := 5 })
      { url := "b", score := 5 } = { url := "b", score := 5 }
    decide
  · decide

/-- C1, amended: on equal scores the `top` comparator keeps the incoming
candidate, so of two equal-score candidates (of non-negative score, so that
the seed does not win instead) the LATER one in sequence order is the
winner of the fold. -/
theorem c1_tie_keeps_later (a b : Link) (hab : a.score = b.score)
    (ha : 0 ≤ a.score) :
    List.foldl (selectLink SortMode.top) defaultLink [a, b] = b := by
  have h1 : topCmp defaultLink a = a := by
    unfold topCmp
    rw [if_neg]
    show ¬ defaultLink.score > a.score
    simp only [defaultLink]
    omega
  have h2 : topCmp a b = b := by
    unfold topCmp
    rw [if_neg]
    omega
  show topCmp (topCmp defaultLink a) b = b
  rw [h1, h2]

/-- C1, witness for the amended theorem at two concrete tied candidates. -/
theorem c1_tie_witness :
    (({ url := "c", score := 7 } : Link).score =
        ({ url := "d", score := 7 } : Link).score
      ∧ 0 ≤ ({ url := "c", score := 7 } : Link).score)
    ∧ List.foldl (selectLink SortMode.top) defaultLink
        [{ url := "c", score := 7 }, { url := "d", score := 7 }] =
        { url := "d", score := 7 } :=
  ⟨⟨rfl, by decide⟩, c1_tie_keeps_later _ _ rfl (by decide)⟩

/-! ### C7 -/

/-- C7: a candidate passes the score clause iff its score is zero (falsy)
or at least the configured threshold; a zero-score candidate passes under
every threshold; score 50 under threshold 100 fails. -/
theorem c7_score_clause (o : Config) (l : Link) :
    (scoreClause o l = true ↔ (l.score = 0 ∨ o.score ≤ l.score))
    ∧ (∀ th : ℤ, scoreClause { defaults "" with score := th } { score := 0 } = true)
    ∧ scoreClause { defaults "" with score := 100 } { score := 50 } = false := by
  refine ⟨?_, ?_, ?_⟩
  · simp [scoreClause]
  · intro th
    simp [scoreClause]
  · rfl

/-! ### C8 -/

/-- C8: the existence probe absorbs stat failures to `false` and returns
`true` only when the stat succeeded and reported a regular file; no probe
failure is ever surfaced (the probe's result type is a plain boolean). -/
theorem c8_fileExists_absorbs (stat : String → Except Unit FStat) (p : String) :
    ((∃ e, stat p = Except.error e) → fileExists stat (some p) = false)
    ∧ (fileExists stat (some p) = true →
        ∃ st, stat p = Except.ok st ∧ st.isFile = true) := by
  constructor
  · rintro ⟨e, he⟩
    simp [fileExists, he]
  · intro ht
    simp only [fileExists] at ht
    by_cases hp : p.isEmpty
    · rw [if_pos hp] at ht
      cases ht
    · rw [if_neg hp] at ht
      cases hstat : stat p with
      | ok st =>
        rw [hstat] at ht
        exact ⟨st, rfl, ht⟩
      | error e =>
        rw [hstat] at ht
        cases ht

/-- C8, witness: a probe over an always-failing stat yields `false`; a
probe that returned `true` under an all-files stat indeed has a successful
regular-file stat behind it. -/
theorem c8_witness :
    fileExists statFails (some "a") = false
    ∧ ∃ st, statAllOk "a" = Except.ok st ∧ st.isFile = true :=
  ⟨(c8_fileExists_absorbs statFails "a").1 ⟨(), rfl⟩,
   (c8_fileExists_absorbs statAllOk "a").2 rfl⟩

/-! ### C9 -/

/-- The resolution pattern accepts any digit runs, so the parsed components
are the (non-negative) values of digit strings. -/
theorem resMatchAt_nonneg (cs : List Char) (r : Resolution)
    (h : resMatchAt cs = some r) : 0 ≤ r.width ∧ 0 ≤ r.height := by
  rw [resMatchAt.eq_def] at h
  dsimp only at h
  split at h
  · split at h
    · cases h
    · split at h
      · split at h
        · split at h
          · cases h
          · split at h
            · cases h
              constructor <;> simp
            · cases h
        · cases h
      · cases h
  · cases h

/-- Non-negativity transported through the leftmost search. -/
theorem resSearch_nonneg (cs : List Char) (r : Resolution)
    (h : resSearch cs = some r) : 0 ≤ r.width ∧ 0 ≤ r.height := by
  induction cs with
  | nil => cases h
  | cons c cs ih =>
    rw [resSearch] at h
    split at h
    · cases h
      exact resMatchAt_nonneg _ _ (by assumption)
    · exact ih h

/-- C9, amended: whenever `parseResolution` returns a result, both
components are non-negative integers (the regex accepts the digit string
`0`, so strict positivity does not hold). -/
theorem c9_resolution_nonneg (title : String) (r : Resolution)
    (h : parseResolution title = some r) : 0 ≤ r.width ∧ 0 ≤ r.height :=
  resSearch_nonneg _ _ h

/-- C9, counterexample: the title `[0x0]` parses to width 0 and height 0,
which are not strictly positive. -/
theorem c9_counterexample :
    parseResolution "[0x0]" = some { width := 0, height := 0 }
    ∧ ¬ (0 < (0 : ℤ)) := by
  constructor
  · decide
  · decide

/-- C9, witness for the amended theorem at a parse that succeeds. -/
theorem c9_witness :
    parseResolution "[1920x1080]" = some { width := 1920, height := 1080 }
    ∧ (0 ≤ ({ width := 1920, height := 1080 } : Resolution).width
       ∧ 0 ≤ ({ width := 1920, height := 1080 } : Resolution).height) :=
  ⟨by decide, c9_resolution_nonneg "[1920x1080]" _ (by decide)⟩

/-! ### C2 -/

/-- C2: `controversy` at the spec's three test points.  With both vote
counts zero the balance is the JS division `0/0 = NaN` and `Math.pow`
propagates it, so the result is NaN — NOT the 0 the specification demands;
the negative-votes guard and the `{ups:10, downs:10}` case do match the
specification. -/
theorem c2_controversy_eval :
    controversy { ups := 0, downs := 0 } = JSNum.nan
    ∧ controversy { ups := -1, downs := 5 } = JSNum.val 0
    ∧ controversy { ups := 10, downs := 10 } = JSNum.val 20 := by
  refine ⟨?_, ?_, ?_⟩
  · unfold controversy
    dsimp only
    rw [if_neg (by norm_num), if_neg (by norm_num)]
    unfold jsDiv
    rw [if_pos (by norm_num), if_pos (by norm_num)]
    rfl
  · unfold controversy
    dsimp only
    rw [if_pos (by norm_num)]
  · unfold controversy
    dsimp only
    rw [if_neg (by norm_num), if_neg (by norm_num)]
    unfold jsDiv
    rw [if_neg (by norm_num)]
    unfold jsPow
    dsimp only
    rw [if_neg (by push_cast; norm_num), if_neg (by push_cast; norm_num)]
    congr 1
    have hexp : ((10 : ℤ) : ℝ) / ((10 : ℤ) : ℝ) = 1 := by norm_num
    rw [hexp, Real.rpow_one]
    norm_num

/-! ### C3 -/

/-- C3: a URL with no parseable `name.ext` form makes `urlFilePath` throw a
TypeError (the source reads `match.length` without checking that the regex
matched), so the shuffle-mode exclusion step REJECTS instead of treating
the candidate's path as undefined and keeping it eligible. -/
theorem c3_unparsable_url_throws :
    urlFilePath "https://imgur.com/abc" ".reddit-wallpaper"
      = Except.error JSError.typeError
    ∧ shuffleFilter ".reddit-wallpaper" statAllOk
        [{ url := "https://imgur.com/abc" }]
      = Except.error JSError.typeError := by
  exact ⟨rfl, rfl⟩

/-! ### C4 -/

/-- C4, counterexample: `heat` rounds to an integer, so two candidates of
score 0 created one second apart (here right at the epoch anchor) get the
SAME heat, refuting strict monotonicity in `createdAt`. -/
theorem c4_counterexample :
    ((1134028003 : ℤ) < 1134028004)
    ∧ heat { score := 0, createdUtc := 1134028003 }
        = heat { score := 0, createdUtc := 1134028004 } := by
  refine ⟨by norm_num, ?_⟩
  have h1 : heat { score := 0, createdUtc := 1134028003 } = 0 := by
    unfold heat jsRound
    dsimp only
    rw [show heatSign 0 = 0 from rfl]
    push_cast
    rw [Int.floor_eq_iff]
    norm_num
  have h2 : heat { score := 0, createdUtc := 1134028004 } = 0 := by
    unfold heat jsRound
    dsimp only
    rw [show heatSign 0 = 0 from rfl]
    push_cast
    rw [Int.floor_eq_iff]
    norm_num
  rw [h1, h2]

/-- C4, amended: `heat` is monotone (non-strictly) in `createdAt` for fixed
score: a later creation time never yields a smaller heat. -/
theorem c4_heat_monotone (x y : Link) (hs : x.score = y.score)
    (ht : x.createdUtc ≤ y.createdUtc) : heat x ≤ heat y := by
  unfold heat jsRound
  rw [hs]
  apply Int.floor_mono
  have hdiv : ((x.createdUtc : ℝ) - 1134028003) / 45000
      ≤ ((y.createdUtc : ℝ) - 1134028003) / 45000 := by
    apply div_le_div_of_nonneg_right ?_ (by norm_num)
    have : (x.createdUtc : ℝ) ≤ (y.createdUtc : ℝ) := by exact_mod_cast ht
    linarith
  linarith

/-- C4, witness for the amended theorem. -/
theorem c4_heat_monotone_witness :
    (({ score := 3, createdUtc := 0 } : Link).score
        = ({ score := 3, createdUtc := 100 } : Link).score
      ∧ ({ score := 3, createdUtc := 0 } : Link).createdUtc
        ≤ ({ score := 3, createdUtc := 100 } : Link).createdUtc)
    ∧ heat { score := 3, createdUtc := 0 } ≤ heat { score := 3, createdUtc := 100 } :=
  ⟨⟨rfl, by decide⟩, c4_heat_monotone _ _ rfl (by decide)⟩

/-! ### C5 -/

/-- `heat` of the fold seed is a lower bound for the heat of any candidate
with non-negative score and non-negative timestamp. -/
theorem heat_defaultLink_le (c : Link) (h1 : 0 ≤ c.score)
    (h2 : 0 ≤ c.createdUtc) : heat defaultLink ≤ heat c := by
  unfold heat jsRound
  apply Int.floor_mono
  rw [show defaultLink.score = 0 from rfl, show defaultLink.createdUtc = 0 from rfl]
  rw [show heatSign 0 = 0 from rfl]
  have hsign : (0 : ℝ) ≤ (heatSign c.score : ℝ) * heatOrder c.score := by
    rcases lt_or_eq_of_le h1 with hpos | hzero
    · rw [show heatSign c.score = 1 from if_pos hpos]
      rw [Int.cast_one, one_mul]
      exact Real.logb_nonneg (by norm_num) (le_max_right _ _)
    · rw [← hzero, show heatSign 0 = 0 from rfl]
      norm_num
  have hsec : (((0 : ℤ) : ℝ) - 1134028003) / 45000
      ≤ ((c.createdUtc : ℝ) - 1134028003) / 45000 := by
    apply div_le_div_of_nonneg_right ?_ (by norm_num)
    have : ((0 : ℤ) : ℝ) ≤ (c.createdUtc : ℝ) := by exact_mod_cast h2
    linarith
  push_cast at hsec ⊢
  linarith

/-- C5, amended: for every sort mode, folding the singleton sequence from
the seed returns the candidate, PROVIDED its score and timestamp are
non-negative (a candidate with, e.g., negative score loses to the all-zero
seed under sort `top`, so the unrestricted claim fails). -/
theorem c5_singleton_identity (m : SortMode) (c : Link)
    (h1 : 0 ≤ c.score) (h2 : 0 ≤ c.createdUtc) :
    List.foldl (selectLink m) defaultLink [c] = c := by
  cases m with
  | top =>
    show topCmp defaultLink c = c
    unfold topCmp
    rw [if_neg]
    rw [show defaultLink.score = 0 from rfl]
    omega
  | hot =>
    show hotCmp defaultLink c = c
    unfold hotCmp
    rw [if_neg]
    exact not_lt.mpr (heat_defaultLink_le c h1 h2)
  | controversial =>
    show controversialCmp defaultLink c = c
    unfold controversialCmp
    rw [if_neg]
    rw [controversy_defaultLink]
    exact jsGt_nan_left _
  | new =>
    show newCmp defaultLink c = c
    unfold newCmp
    rw [if_neg]
    rw [show defaultLink.createdUtc = 0 from rfl]
    omega

/-- C5, counterexample: for a candidate of negative score the seed wins
under sort `top`, so the seed is not an identity of the fold and can be
returned for a non-empty sequence. -/
theorem c5_counterexample :
    List.foldl (selectLink SortMode.top) defaultLink
      [{ url := "u", score := -1 }] = defaultLink
    ∧ defaultLink ≠ ({ url := "u", score := -1 } : Link) := by
  constructor
  · show topCmp defaultLink { url := "u", score := -1 } = defaultLink
    decide
  · decide

/-- C5, witness for the amended theorem. -/
theorem c5_singleton_witness :
    (0 ≤ ({ url := "w", createdUtc := 7 } : Link).score
      ∧ 0 ≤ ({ url := "w", createdUtc := 7 } : Link).createdUtc)
    ∧ List.foldl (selectLink SortMode.new) defaultLink
        [{ url := "w", createdUtc := 7 }] = { url := "w", createdUtc := 7 } :=
  ⟨⟨by decide, by decide⟩,
   c5_singleton_identity SortMode.new _ (by decide) (by decide)⟩

/-! ### C6 -/

/-- When every candidate's target path is defined and probes as existing,
the shuffle filtering keeps nothing. -/
theorem shuffleFilter_all_exist (dir : String)
    (stat : String → Except Unit FStat) :
    ∀ links : List Link,
      (∀ l ∈ links, ∃ p, urlFilePath l.url dir = Except.ok p
        ∧ fileExists stat p = true) →
      shuffleFilter dir stat links = Except.ok [] := by
  intro links
  induction links with
  | nil => intro _; rfl
  | cons l ls ih =>
    intro h
    obtain ⟨p, hp, he⟩ := h l (List.mem_cons_self l ls)
    have hrest := ih fun x hx => h x (List.mem_cons_of_mem _ hx)
    simp only [shuffleFilter]
    rw [hp, hrest]
    simp [he]

/-- C6: with shuffle enabled and an existence probe that reports "exists"
for every candidate, the selection returns the seed `defaultLink` (the
empty-selection sentinel). -/
theorem c6_all_exist_default (m : SortMode) (dir : String)
    (stat : String → Except Unit FStat) (links : List Link)
    (h : ∀ l ∈ links, ∃ p, urlFilePath l.url dir = Except.ok p
      ∧ fileExists stat p = true) :
    selectFromFiltered m true dir stat links = Except.ok defaultLink := by
  unfold selectFromFiltered
  rw [if_pos rfl]
  rw [shuffleFilter_all_exist dir stat links h]
  rfl

/-- C6, witness: one concrete candidate whose target file the stat
capability reports as an existing regular file. -/
theorem c6_witness :
    selectFromFiltered SortMode.top true "d" statAllOk
      [{ url := "http://a/b.png" }] = Except.ok defaultLink :=
  c6_all_exist_default SortMode.top "d" statAllOk _ (by
    intro l hl
    rw [List.mem_singleton] at hl
    subst hl
    exact ⟨some "d/b.png", rfl, rfl⟩)

/-! ### C10 -/

/-- Lower-casing an upper-case ASCII letter lands strictly above the
upper-case range. -/
theorem toNat_jsLowerChar (c : Char) (h : 65 ≤ c.toNat ∧ c.toNat ≤ 90) :
    (jsLowerChar c).toNat = c.toNat + 32 := by
  unfold jsLowerChar
  rw [if_pos h]
  unfold Char.ofNat
  rw [dif_pos (show (c.toNat + 32).isValidChar from Or.inl (by omega))]
  rfl

/-- The result of `jsLowerChar` is never an upper-case ASCII letter. -/
theorem hasUpperChar_jsLowerChar (c : Char) :
    hasUpperChar (jsLowerChar c) = false := by
  by_cases h : 65 ≤ c.toNat ∧ c.toNat ≤ 90
  · have ht := toNat_jsLowerChar c h
    unfold hasUpperChar
    apply decide_eq_false
    intro hc
    rw [ht] at hc
    omega
  · unfold jsLowerChar
    rw [if_neg h]
    exact decide_eq_false h

/-- A lower-cased string contains no upper-case ASCII letter. -/
theorem hasUpperStr_jsLowerStr (s : String) :
    hasUpperStr (jsLowerStr s) = false := by
  show (s.toList.map jsLowerChar).any hasUpperChar = false
  rw [List.any_map]
  rw [List.any_eq_false]
  intro x hx
  simp [Function.comp, hasUpperChar_jsLowerChar]

/-- C10: configuration construction passes `types` through verbatim (only
`files` — a key the filter never reads — and `domains` are lower-cased),
the filter's result is independent of `files`, and a `types` entry with an
upper-case letter can never equal a normalized candidate's file type. -/
theorem c10_types_used_verbatim (home : String) (expand : String → String)
    (o : ConfigIn) (ts fs : List String)
    (hts : o.types = some (some ts)) (hfs : o.files = some (some fs))
    (cfg : Config) (l : Link) (f : Option (List String))
    (entry url : String) (hu : hasUpperStr entry = true) :
    (assignConfig home expand o).types = some ts
    ∧ (assignConfig home expand o).files = some (fs.map jsLowerStr)
    ∧ linkFilter { cfg with files := f } l = linkFilter cfg l
    ∧ entry ≠ normalizeType url := by
  refine ⟨?_, ?_, rfl, ?_⟩
  · simp [assignConfig, hts]
  · simp [assignConfig, hfs]
  · intro he
    rw [he] at hu
    unfold normalizeType at hu
    rw [hasUpperStr_jsLowerStr] at hu
    cases hu

/-- C10, witness at a concrete configuration, candidate and entry. -/
theorem c10_witness :
    (assignConfig "h" id
        { types := some (some ["png"]), files := some (some ["OLD.png"]) }).types
      = some ["png"]
    ∧ (assignConfig "h" id
        { types := some (some ["png"]), files := some (some ["OLD.png"]) }).files
      = some (["OLD.png"].map jsLowerStr)
    ∧ linkFilter { defaults "h" with files := none } ({ } : Link)
      = linkFilter (defaults "h") ({ } : Link)
    ∧ "PNG" ≠ normalizeType "http://a/b.PNG" :=
  c10_types_used_verbatim "h" id _ ["png"] ["OLD.png"] rfl rfl
    (defaults "h") { } none "PNG" "http://a/b.PNG" (by decide)
